import Mathlib

/-
  Shallow embedding of the Razer Naga lowlevel driver
  (src/librazer/hw_naga.c) for checking its specification.

  Packets are lists of byte values.  The USB transport is modelled as an
  oracle `ios : Nat → Int` giving the result of the n-th
  `naga_send_command` exchange (0 = success, a negative libusb code =
  failure); stateful C code becomes explicit state passing on
  `NagaState`.  C `enum razer_mouse_freq` values are carried as raw
  naturals, matching the C integer semantics.
-/

set_option autoImplicit false

namespace Razer

/-! ## Error codes (Linux errno values; C code returns their negation) -/

def EBUSY : Int := 16
def ENODEV : Int := 19
def EINVAL : Int := 22

/-! ## razer.h enumerations used by hw_naga.c (values as in the C header) -/

/-- LED state: `RAZER_LED_OFF = 0`, `RAZER_LED_ON = 1`, `RAZER_LED_UNKNOWN = 2`.
`unknown` is the sentinel marking a LED unsupported on this model. -/
inductive LedState where
  | off
  | on
  | unknown
deriving DecidableEq, Repr

/-- Integer value of a `razer_led_state`, for C truthiness tests. -/
def LedState.toNat : LedState → Nat
  | .off => 0
  | .on => 1
  | .unknown => 2

def RAZER_MOUSE_FREQ_UNKNOWN : Nat := 0
def RAZER_MOUSE_FREQ_125HZ : Nat := 125
def RAZER_MOUSE_FREQ_500HZ : Nat := 500
def RAZER_MOUSE_FREQ_1000HZ : Nat := 1000

/-! ## Misc constants from hw_naga.c -/

def NAGA_NR_LEDS : Nat := 3
def NAGA_5600_NR_DPIMAPPINGS : Nat := 56
def NAGA_8200_NR_DPIMAPPINGS : Nat := 82

/-! ## Command packets (struct naga_command, 90 bytes) -/

abbrev Packet := List Nat

/-- naga_command_init: memset the 90-byte packet to zero. -/
def naga_command_init : Packet := List.replicate 90 0

/-- Store one byte (uint8_t assignment truncates mod 256). -/
def setByte (p : Packet) (i v : Nat) : Packet := p.set i (v % 256)

/-- Store a big-endian 16-bit field (cpu_to_be16 then struct assignment). -/
def setBe16 (p : Packet) (off v : Nat) : Packet :=
  setByte (setByte p off (v / 256)) (off + 1) v

/-- Store a run of bytes starting at a given offset. -/
def setBytesFrom (p : Packet) (off : Nat) : List Nat → Packet
  | [] => p
  | v :: vs => setBytesFrom (setByte p off v) (off + 1) vs

def U32 : Nat := 4294967296

/-- The `unsigned int` expression `((dpi / 100) - 1) * 4` of
naga_command_init_resolution_5600, with C wrap-around semantics. -/
def scaledRes (dpi : Nat) : Nat :=
  ((dpi / 100 + (U32 - 1)) % U32 * 4) % U32

/-- naga_command_init_resolution_5600: command 0x0003, request 0x0401,
values[0] and values[1] carry the scaled per-axis resolution codes. -/
def naga_command_init_resolution_5600 (xdpi ydpi : Nat) : Packet :=
  setBytesFrom (setBe16 (setBe16 naga_command_init 4 0x0003) 6 0x0401) 8
    [scaledRes xdpi, scaledRes ydpi]

/-- naga_command_init_resolution_8200: command 0x0007, request 0x0405,
raw DPI values big-endian at values+1 and values+3 (offsets 9 and 11). -/
def naga_command_init_resolution_8200 (xdpi ydpi : Nat) : Packet :=
  setBe16 (setBe16 (setBe16 (setBe16 naga_command_init 4 0x0007) 6 0x0405) 9 xdpi) 11 ydpi

/-- Protocol id bytes of each LED (table naga_leds). -/
def naga_leds_values (id : Nat) : Nat × Nat :=
  if id = 0 then (0x01, 0x01)
  else if id = 1 then (0x01, 0x04)
  else (0x01, 0x05)

/-- One LED command: command 0x0003, request 0x0300, values[0..1] the LED
protocol id, values[2] = 1 iff the stored state is truthy. -/
def ledCmd (id : Nat) (st : LedState) : Packet :=
  let p := setBytesFrom (setBe16 (setBe16 naga_command_init 4 0x0003) 6 0x0300) 8
    [(naga_leds_values id).1, (naga_leds_values id).2]
  if st.toNat ≠ 0 then setByte p 10 1 else p

/-- The frequency switch in naga_do_commit: 125 → 8, 500 → 2,
1000 or unknown → 1, anything else → invalid argument. -/
def freqCode (f : Nat) : Option Nat :=
  if f = RAZER_MOUSE_FREQ_125HZ then some 8
  else if f = RAZER_MOUSE_FREQ_500HZ then some 2
  else if f = RAZER_MOUSE_FREQ_1000HZ ∨ f = RAZER_MOUSE_FREQ_UNKNOWN then some 1
  else none

/-- The frequency command: command 0x0001, request 0x0005, values[0] = code. -/
def freqCmd (c : Nat) : Packet :=
  setBytesFrom (setBe16 (setBe16 naga_command_init 4 0x0001) 6 0x0005) 8 [c]

/-- The firmware-version query: command 0x0002, request 0x0081. -/
def fwQueryCmd : Packet := setBe16 (setBe16 naga_command_init 4 0x0002) 6 0x0081

/-! ## Checksum framing -/

/-- Modelled from the spec: `razer_xor8_checksum` (a librazer helper whose
definition is not under src/) is the plain XOR accumulation over the given
bytes; the spec's packet-layout table describes the checksum field as the
XOR of bytes 2..87, i.e. of the `size - 4` bytes starting at offset 2 that
`naga_send_command` passes to it. -/
def razer_xor8_checksum (bytes : List Nat) : Nat :=
  bytes.foldl (fun a b => a ^^^ b) 0

/-- The signing step of naga_send_command:
`cmd->checksum = razer_xor8_checksum((uint8_t *)cmd + 2, sizeof(*cmd) - 4)`,
i.e. byte 88 is set to the XOR of the 86 bytes at offsets 2..87. -/
def naga_sign (p : Packet) : Packet :=
  p.set 88 (razer_xor8_checksum ((p.drop 2).take 86))

/-! ## Driver state (struct naga_private plus the device claim counter) -/

/-- Which resolution builder razer_naga_init installed in the
`command_init_resolution` function pointer. -/
inductive ResVariant where
  | scaled
  | raw
deriving DecidableEq, Repr

/-- One struct razer_mouse_dpimapping slot: index and resolution value. -/
structure DpiMapping where
  nr : Nat
  res : Nat
deriving DecidableEq, Repr

structure NagaState where
  fw_version : Nat
  led_scroll : LedState
  led_logo : LedState
  led_thumb : LedState
  frequency : Nat
  cur_dpimapping_X : DpiMapping
  cur_dpimapping_Y : DpiMapping
  nb_dpimappings : Nat
  variant : ResVariant
  commit_pending : Bool
  claim_count : Nat
  suggest_fwup : Bool
deriving DecidableEq, Repr

/-- led_states array lookup by LED id (ids 0, 1, 2). -/
def NagaState.ledState (s : NagaState) (id : Nat) : LedState :=
  if id = 0 then s.led_scroll
  else if id = 1 then s.led_logo
  else s.led_thumb

/-- led_states array store by LED id (only ids 0, 1, 2 are ever written). -/
def NagaState.setLed (s : NagaState) (id : Nat) (v : LedState) : NagaState :=
  if id = 0 then { s with led_scroll := v }
  else if id = 1 then { s with led_logo := v }
  else if id = 2 then { s with led_thumb := v }
  else s

/-- Dispatch through the `command_init_resolution` function pointer. -/
def command_init_resolution (s : NagaState) : Packet :=
  match s.variant with
  | .scaled => naga_command_init_resolution_5600 s.cur_dpimapping_X.res s.cur_dpimapping_Y.res
  | .raw => naga_command_init_resolution_8200 s.cur_dpimapping_X.res s.cur_dpimapping_Y.res

/-- The LED loop of naga_do_commit: one command per LED whose stored state
is not the RAZER_LED_UNKNOWN sentinel, in LED-id order. -/
def ledCmds (s : NagaState) : List Packet :=
  (List.range NAGA_NR_LEDS).filterMap (fun id =>
    if s.ledState id = LedState.unknown then none
    else some (ledCmd id (s.ledState id)))

/-! ## Transport and commit machine -/

/-- Send a list of packets in order through naga_send_command, consuming
one oracle entry per exchange starting at index i.  Returns the result of
the first failing exchange (or 0), the signed packets actually handed to
the transport (the failing one included), and the next oracle index. -/
def sendSeq (ios : Nat → Int) : Nat → List Packet → Int × List Packet × Nat
  | i, [] => (0, [], i)
  | i, p :: ps =>
    if ios i = 0 then
      let r := sendSeq ios (i + 1) ps
      (r.1, naga_sign p :: r.2.1, r.2.2)
    else (ios i, [naga_sign p], i + 1)

/-- naga_do_commit: resolution command, then the LED commands, then the
frequency switch and the frequency command.  Returns the C result, the
transmitted packet trace and the next oracle index. -/
def naga_do_commit (s : NagaState) (ios : Nat → Int) (i0 : Nat) :
    Int × List Packet × Nat :=
  let r := sendSeq ios i0 (command_init_resolution s :: ledCmds s)
  if r.1 ≠ 0 then r
  else
    match freqCode s.frequency with
    | none => (-EINVAL, r.2.1, r.2.2)
    | some c =>
      let r2 := sendSeq ios r.2.2 [freqCmd c]
      (r2.1, r.2.1 ++ r2.2.1, r2.2.2)

/-- naga_commit: busy without a claim; otherwise flush when pending or
forced, clearing commit_pending only on full success.  Returns the C
result, the new state and the transmitted packet trace. -/
def naga_commit (s : NagaState) (ios : Nat → Int) (force : Bool) :
    Int × NagaState × List Packet :=
  if s.claim_count = 0 then (-EBUSY, s, [])
  else if s.commit_pending || force then
    if (naga_do_commit s ios 0).1 = 0 then
      (0, { s with commit_pending := false }, (naga_do_commit s ios 0).2.1)
    else ((naga_do_commit s ios 0).1, s, (naga_do_commit s ios 0).2.1)
  else (0, s, [])

/-! ## Mutators (no I/O by construction, as in the C code) -/

/-- naga_set_freq: busy without a claim, otherwise store the value (no
validation) and mark a commit pending. -/
def naga_set_freq (s : NagaState) (freq : Nat) : Int × NagaState :=
  if s.claim_count = 0 then (-EBUSY, s)
  else (0, { s with frequency := freq, commit_pending := true })

/-- naga_led_toggle: validate id, target state and the unsupported
sentinel, then require a claim, then store the state and mark pending. -/
def naga_led_toggle (s : NagaState) (id : Nat) (new_state : LedState) :
    Int × NagaState :=
  if id ≥ NAGA_NR_LEDS then (-EINVAL, s)
  else if new_state ≠ LedState.off ∧ new_state ≠ LedState.on then (-EINVAL, s)
  else if s.ledState id = LedState.unknown then (-EINVAL, s)
  else if s.claim_count = 0 then (-EBUSY, s)
  else (0, { s.setLed id new_state with commit_pending := true })

/-- naga_set_dpimapping: busy without a claim; a present axis id ≥ 3 is
invalid; axis 0 sets X, axis 1 sets Y, any other present id is invalid;
a NULL axis sets both. -/
def naga_set_dpimapping (s : NagaState) (axis : Option Nat) (d : DpiMapping) :
    Int × NagaState :=
  if s.claim_count = 0 then (-EBUSY, s)
  else
    match axis with
    | some a =>
      if a ≥ 3 then (-EINVAL, s)
      else if a = 0 then (0, { s with cur_dpimapping_X := d, commit_pending := true })
      else if a = 1 then (0, { s with cur_dpimapping_Y := d, commit_pending := true })
      else (-EINVAL, s)
    | none =>
      (0, { s with cur_dpimapping_X := d, cur_dpimapping_Y := d,
                   commit_pending := true })

/-- naga_get_dpimapping: a NULL axis means axes[0]; id 0 gives X, id 1
gives Y, anything else NULL. -/
def naga_get_dpimapping (s : NagaState) (axis : Option Nat) : Option DpiMapping :=
  let a := axis.getD 0
  if a = 0 then some s.cur_dpimapping_X
  else if a = 1 then some s.cur_dpimapping_Y
  else none

/-! ## Firmware-version probe -/

/-- One probe attempt is summarised by the oracle as the naga_send_command
result and the 16-bit version word read back from the response values. -/
def fwGood (a : Int × Nat) : Prop :=
  a.1 = 0 ∧ Nat.land (a.2 % 65536) 0xFF00 ≠ 0

instance (a : Int × Nat) : Decidable (fwGood a) := by
  unfold fwGood; infer_instance

/-- The retry loop of naga_read_fw_ver: argument order is attempt index,
number of 250 ms sleeps performed so far, remaining attempts.  A failed
attempt sleeps once; exhausting the attempts yields -ENODEV. -/
def fwVerLoop (att : Nat → Int × Nat) : Nat → Nat → Nat → Int × Nat
  | _, sleeps, 0 => (-ENODEV, sleeps)
  | i, sleeps, fuel + 1 =>
    if fwGood (att i) then (((att i).2 % 65536 : Nat), sleeps)
    else fwVerLoop att (i + 1) (sleeps + 1) fuel

/-- naga_read_fw_ver: up to 5 attempts; returns the version (and the
number of 250 ms sleeps taken) or -ENODEV after 5 failures. -/
def naga_read_fw_ver (att : Nat → Int × Nat) : Int × Nat :=
  fwVerLoop att 0 0 5

/-! ## Attach-time initialization (razer_naga_init) -/

/-- The six USB product ids the driver recognises. -/
inductive NagaPid where
  | classic
  | epic
  | n2012
  | hex
  | hexV2
  | n2014
deriving DecidableEq, Repr

/-- The per-model DPI mapping table: slot i has index i and resolution
(i + 1) * 100. -/
def dpimappingTable (nb : Nat) : List DpiMapping :=
  (List.range nb).map (fun i => ⟨i, (i + 1) * 100⟩)

/-- The init loop's selection of the current mapping: the slot whose
resolution equals 1000 DPI. -/
def initCurDpi (nb : Nat) : Option DpiMapping :=
  (List.range nb).foldl
    (fun acc i => if (i + 1) * 100 = 1000 then some ⟨i, (i + 1) * 100⟩ else acc)
    none

structure InitResult where
  result : Except Int NagaState
  claim_released : Bool
deriving Repr

/-- The model-dependent slot count chosen by razer_naga_init. -/
def initNbDpimappings (pid : NagaPid) : Nat :=
  if pid = NagaPid.n2014 then NAGA_8200_NR_DPIMAPPINGS
  else NAGA_5600_NR_DPIMAPPINGS

/-- The driver state razer_naga_init builds after a successful firmware
probe, while the device is still claimed: defaults (1000 Hz, LEDs on,
thumb-grid LED marked unsupported except on the 2014 model), the
per-model slot count and resolution builder, and the current mapping
picked by the table loop. -/
def initState (pid : NagaPid) (fw : Nat) : NagaState :=
  { fw_version := fw
    led_scroll := .on
    led_logo := .on
    led_thumb := if pid = NagaPid.n2014 then .on else .unknown
    frequency := RAZER_MOUSE_FREQ_1000HZ
    cur_dpimapping_X := (initCurDpi (initNbDpimappings pid)).getD ⟨0, 0⟩
    cur_dpimapping_Y := (initCurDpi (initNbDpimappings pid)).getD ⟨0, 0⟩
    nb_dpimappings := initNbDpimappings pid
    variant := if pid = NagaPid.n2014 then .raw else .scaled
    commit_pending := false
    claim_count := 1
    suggest_fwup := if pid = NagaPid.epic ∧ fw < 0x0104 then true else false }

/-- razer_naga_init, from the point where the device has been claimed:
probe the firmware version (aborting on failure), populate the per-model
state and tables, run the initial naga_do_commit (aborting on failure),
and release the claim.  External steps assumed successful (descriptor
read, allocation, interface registration, the claim itself) are outside
the model. -/
def razer_naga_init (pid : NagaPid) (att : Nat → Int × Nat)
    (ios : Nat → Int) : InitResult :=
  if (naga_read_fw_ver att).1 < 0 then ⟨.error (naga_read_fw_ver att).1, true⟩
  else if (naga_do_commit (initState pid (naga_read_fw_ver att).1.toNat) ios 0).1 ≠ 0 then
    ⟨.error (naga_do_commit (initState pid (naga_read_fw_ver att).1.toNat) ios 0).1, true⟩
  else ⟨.ok { initState pid (naga_read_fw_ver att).1.toNat with claim_count := 0 }, true⟩

/-! ## Derived notions used by the statements -/

/-- The packets naga_do_commit hands to the transport before the
frequency step: the resolution command and the per-LED commands. -/
def commitHead (s : NagaState) : List Packet :=
  command_init_resolution s :: ledCmds s

/-- The full command sequence of one successful flush, given the device
code of the stored frequency. -/
def commitPlan (s : NagaState) (c : Nat) : List Packet :=
  commitHead s ++ [freqCmd c]

/-- A claimed Naga Classic style state (thumb-grid LED unsupported),
with the attach-time defaults, used as concrete test input. -/
def sClaimed : NagaState :=
  { fw_version := 261
    led_scroll := .on
    led_logo := .on
    led_thumb := .unknown
    frequency := RAZER_MOUSE_FREQ_1000HZ
    cur_dpimapping_X := ⟨9, 1000⟩
    cur_dpimapping_Y := ⟨9, 1000⟩
    nb_dpimappings := NAGA_5600_NR_DPIMAPPINGS
    variant := .scaled
    commit_pending := false
    claim_count := 1
    suggest_fwup := false }

/-- The same state with a pending commit and the out-of-enum frequency
value 300 stored (naga_set_freq accepts it verbatim). -/
def sInvalidFreq : NagaState :=
  { sClaimed with frequency := 300, commit_pending := true }

/-- The same state unclaimed. -/
def sUnclaimed : NagaState :=
  { sClaimed with claim_count := 0 }

/-- The state razer_naga_init yields for a Naga 2014 reporting firmware
word 261 (1.05), after the final release. -/
def s2014 : NagaState :=
  { fw_version := 261
    led_scroll := .on
    led_logo := .on
    led_thumb := .on
    frequency := RAZER_MOUSE_FREQ_1000HZ
    cur_dpimapping_X := ⟨9, 1000⟩
    cur_dpimapping_Y := ⟨9, 1000⟩
    nb_dpimappings := NAGA_8200_NR_DPIMAPPINGS
    variant := .raw
    commit_pending := false
    claim_count := 0
    suggest_fwup := false }

/-- The state razer_naga_init yields for a Naga Classic reporting
firmware word 261, after the final release. -/
def sClassicInit : NagaState :=
  { sClaimed with claim_count := 0 }

/-! # Supporting lemmas -/

lemma getD_set_self (l : List Nat) (i v : Nat) (h : i < l.length) :
    (l.set i v).getD i 0 = v := by
  simp [List.getD_eq_getElem?_getD, List.getElem?_set_self h]

lemma getD_set_ne (l : List Nat) {i j : Nat} (v : Nat) (h : i ≠ j) :
    (l.set i v).getD j 0 = l.getD j 0 := by
  simp [List.getD_eq_getElem?_getD, List.getElem?_set_ne h]

lemma drop_take_eq_map_range (p : List Nat) :
    ∀ (n s : Nat), s + n ≤ p.length →
      (p.drop s).take n = (List.range' s n).map (fun i => p.getD i 0) := by
  intro n
  induction n with
  | zero => simp
  | succ n ih =>
    intro s hs
    have hslt : s < p.length := by omega
    rw [List.drop_eq_getElem_cons hslt, List.take_succ_cons, List.range'_succ,
      List.map_cons, ← ih (s + 1) (by omega)]
    congr 1
    simp [List.getD_eq_getElem?_getD, List.getElem?_eq_getElem hslt]

/-! # Claim C2 -/

/-- Claim C2, counterexample: on the 90-byte packet that is zero except
for the value 5 at offset 86, the checksum byte written by the signing
step is 5, while the XOR over the claimed half-open range [2, size-4),
i.e. offsets 2 through 85, is 0. -/
theorem checksum_range_counterexample :
    (naga_sign ((List.replicate 90 0).set 86 5)).getD 88 0 = 5 ∧
    razer_xor8_checksum ((((List.replicate 90 0).set 86 5).drop 2).take 84) = 0 ∧
    (5 : Nat) ≠ 0 := by decide

/-- Claim C2 (amended): for every 90-byte command packet, the checksum
byte written by sign before transmission equals the XOR of the bytes at
offsets 2 through 87 inclusive, i.e. the size-4 bytes starting at offset
2, excluding the status byte and the first padding byte at the front and
the checksum and trailing padding bytes at the end. -/
theorem naga_sign_checksum (p : Packet) (h : p.length = 90) :
    (naga_sign p).getD 88 0 =
      (List.range' 2 86).foldl (fun a i => a ^^^ p.getD i 0) 0 := by
  unfold naga_sign
  rw [getD_set_self _ _ _ (by omega), razer_xor8_checksum,
    drop_take_eq_map_range p 86 2 (by omega), List.foldl_map]

/-- Claim C2 witness: the amended checksum equation evaluated on a
concrete LED command packet. -/
theorem naga_sign_checksum_witness :
    (ledCmd 0 LedState.on).length = 90 ∧
    (naga_sign (ledCmd 0 LedState.on)).getD 88 0 =
      (List.range' 2 86).foldl (fun a i => a ^^^ (ledCmd 0 LedState.on).getD i 0) 0 :=
  ⟨by decide, naga_sign_checksum (ledCmd 0 LedState.on) (by decide)⟩

/-! # Claim C3 -/

lemma res5600_getD (x y : Nat) :
    (naga_command_init_resolution_5600 x y).getD 8 0 = scaledRes x % 256 ∧
    (naga_command_init_resolution_5600 x y).getD 9 0 = scaledRes y % 256 := by
  simp only [naga_command_init_resolution_5600, setBytesFrom, setBe16, setByte,
    Nat.reduceAdd]
  constructor
  · rw [getD_set_ne _ _ (by omega), getD_set_self _ _ _ (by simp [naga_command_init])]
  · rw [getD_set_self _ _ _ (by simp [naga_command_init])]

lemma res8200_getD (x y : Nat) :
    (naga_command_init_resolution_8200 x y).getD 9 0 = x / 256 % 256 ∧
    (naga_command_init_resolution_8200 x y).getD 10 0 = x % 256 ∧
    (naga_command_init_resolution_8200 x y).getD 11 0 = y / 256 % 256 ∧
    (naga_command_init_resolution_8200 x y).getD 12 0 = y % 256 := by
  simp only [naga_command_init_resolution_8200, setBe16, setByte, Nat.reduceAdd]
  refine ⟨?_, ?_, ?_, ?_⟩
  · rw [getD_set_ne _ _ (by omega), getD_set_ne _ _ (by omega), getD_set_ne _ _ (by omega),
      getD_set_self _ _ _ (by simp [naga_command_init])]
  · rw [getD_set_ne _ _ (by omega), getD_set_ne _ _ (by omega),
      getD_set_self _ _ _ (by simp [naga_command_init])]
  · rw [getD_set_ne _ _ (by omega), getD_set_self _ _ _ (by simp [naga_command_init])]
  · rw [getD_set_self _ _ _ (by simp [naga_command_init])]

/-- Claim C3: over the current DPI mappings a variant can hold (scaled
variant: table resolutions 100..5600; raw variant: 16-bit fields), the
scaled builder carries one byte per axis equal to ((dpi/100) - 1) * 4 at
values[0] and values[1] (offsets 8 and 9), the raw builder carries each
axis DPI verbatim as a 2-byte big-endian field (offsets 9..10 and
11..12), and DPI 500 on both axes under the scaled variant yields value
bytes [16, 16]. -/
theorem resolution_encoding (dx dy rx ry : Nat)
    (hx1 : 100 ≤ dx) (hx2 : dx ≤ 5600) (hy1 : 100 ≤ dy) (hy2 : dy ≤ 5600)
    (hrx : rx < 65536) (hry : ry < 65536) :
    ((naga_command_init_resolution_5600 dx dy).getD 8 0 = (dx / 100 - 1) * 4 ∧
     (naga_command_init_resolution_5600 dx dy).getD 9 0 = (dy / 100 - 1) * 4) ∧
    ((naga_command_init_resolution_8200 rx ry).getD 9 0 * 256 +
       (naga_command_init_resolution_8200 rx ry).getD 10 0 = rx ∧
     (naga_command_init_resolution_8200 rx ry).getD 11 0 * 256 +
       (naga_command_init_resolution_8200 rx ry).getD 12 0 = ry) ∧
    ((naga_command_init_resolution_5600 500 500).getD 8 0 = 16 ∧
     (naga_command_init_resolution_5600 500 500).getD 9 0 = 16) := by
  obtain ⟨e8, e9⟩ := res5600_getD dx dy
  obtain ⟨f9, f10, f11, f12⟩ := res8200_getD rx ry
  refine ⟨⟨?_, ?_⟩, ⟨?_, ?_⟩, by decide⟩
  · rw [e8]; unfold scaledRes U32; omega
  · rw [e9]; unfold scaledRes U32; omega
  · rw [f9, f10]; omega
  · rw [f11, f12]; omega

/-- Claim C3 witness: both encodings evaluated at concrete mappings
(scaled: 500 and 5600 DPI; raw: 8000 and 1000 DPI). -/
theorem resolution_encoding_witness :
    (naga_command_init_resolution_5600 500 5600).getD 8 0 = (500 / 100 - 1) * 4 ∧
    (naga_command_init_resolution_8200 8000 1000).getD 9 0 * 256 +
      (naga_command_init_resolution_8200 8000 1000).getD 10 0 = 8000 :=
  ⟨((resolution_encoding 500 5600 8000 1000 (by decide) (by decide) (by decide)
      (by decide) (by decide) (by decide)).1).1,
   (((resolution_encoding 500 5600 8000 1000 (by decide) (by decide) (by decide)
      (by decide) (by decide) (by decide)).2).1).1⟩

/-! # Claim C4 -/

lemma naga_read_fw_ver_eq (att : Nat → Int × Nat) :
    naga_read_fw_ver att =
      if fwGood (att 0) then ((((att 0).2 % 65536 : Nat) : Int), 0)
      else if fwGood (att 1) then ((((att 1).2 % 65536 : Nat) : Int), 1)
      else if fwGood (att 2) then ((((att 2).2 % 65536 : Nat) : Int), 2)
      else if fwGood (att 3) then ((((att 3).2 % 65536 : Nat) : Int), 3)
      else if fwGood (att 4) then ((((att 4).2 % 65536 : Nat) : Int), 4)
      else (-ENODEV, 5) := rfl

/-- Claim C4: the firmware probe consults at most the first 5 attempts;
an attempt succeeds exactly when its transfer succeeded and the high
byte of the 16-bit version is non-zero, the first such attempt's version
being returned after one 250 ms sleep per preceding failure (so 4
failures then 1 success still return the probed version); when all 5
attempts fail the probe returns -ENODEV after 5 sleeps and
razer_naga_init aborts with that error, releasing the claim. -/
theorem fw_probe_spec (pid : NagaPid) (att : Nat → Int × Nat) (ios : Nat → Int) :
    (∀ att2 : Nat → Int × Nat, (∀ i, i < 5 → att i = att2 i) →
        naga_read_fw_ver att = naga_read_fw_ver att2) ∧
    (∀ k, k < 5 → fwGood (att k) → (∀ j, j < k → ¬ fwGood (att j)) →
        naga_read_fw_ver att = ((((att k).2 % 65536 : Nat) : Int), k)) ∧
    ((∀ j, j < 5 → ¬ fwGood (att j)) →
        naga_read_fw_ver att = (-ENODEV, 5) ∧
        (razer_naga_init pid att ios).result = .error (-ENODEV) ∧
        (razer_naga_init pid att ios).claim_released = true) := by
  refine ⟨?_, ?_, ?_⟩
  · intro att2 h
    rw [naga_read_fw_ver_eq att, naga_read_fw_ver_eq att2,
      h 0 (by omega), h 1 (by omega), h 2 (by omega), h 3 (by omega), h 4 (by omega)]
  · intro k hk hgood hprev
    interval_cases k
    · rw [naga_read_fw_ver_eq, if_pos hgood]
    · rw [naga_read_fw_ver_eq, if_neg (hprev 0 (by omega)), if_pos hgood]
    · rw [naga_read_fw_ver_eq, if_neg (hprev 0 (by omega)),
        if_neg (hprev 1 (by omega)), if_pos hgood]
    · rw [naga_read_fw_ver_eq, if_neg (hprev 0 (by omega)),
        if_neg (hprev 1 (by omega)), if_neg (hprev 2 (by omega)), if_pos hgood]
    · rw [naga_read_fw_ver_eq, if_neg (hprev 0 (by omega)),
        if_neg (hprev 1 (by omega)), if_neg (hprev 2 (by omega)),
        if_neg (hprev 3 (by omega)), if_pos hgood]
  · intro h
    have hver : naga_read_fw_ver att = (-ENODEV, 5) := by
      rw [naga_read_fw_ver_eq, if_neg (h 0 (by omega)), if_neg (h 1 (by omega)),
        if_neg (h 2 (by omega)), if_neg (h 3 (by omega)), if_neg (h 4 (by omega))]
    refine ⟨hver, ?_, ?_⟩
    · unfold razer_naga_init
      rw [hver]
      simp [ENODEV]
    · unfold razer_naga_init
      split_ifs <;> rfl

/-- Claim C4 witness: 4 simulated failures then one good response return
the probed version with 4 sleeps; 5 failures return -ENODEV after 5. -/
theorem fw_probe_spec_witness :
    naga_read_fw_ver (fun i => if i < 4 then ((-1 : Int), 0) else (0, 261)) = (261, 4) ∧
    naga_read_fw_ver (fun _ => ((-1 : Int), 0)) = (-ENODEV, 5) := by
  constructor
  · have h := (fw_probe_spec NagaPid.classic
      (fun i => if i < 4 then ((-1 : Int), 0) else (0, 261)) (fun _ => 0)).2.1
      4 (by omega) (by decide) (fun j hj => by interval_cases j <;> decide)
    simpa using h
  · exact ((fw_probe_spec NagaPid.classic (fun _ => ((-1 : Int), 0)) (fun _ => 0)).2.2
      (fun j _ => by decide)).1

/-! # Commit machinery -/

lemma sendSeq_append (ios : Nat → Int) :
    ∀ (xs ys : List Packet) (i0 : Nat),
      sendSeq ios i0 (xs ++ ys) =
        if (sendSeq ios i0 xs).1 = 0 then
          ((sendSeq ios (sendSeq ios i0 xs).2.2 ys).1,
           (sendSeq ios i0 xs).2.1 ++ (sendSeq ios (sendSeq ios i0 xs).2.2 ys).2.1,
           (sendSeq ios (sendSeq ios i0 xs).2.2 ys).2.2)
        else sendSeq ios i0 xs := by
  intro xs
  induction xs with
  | nil =>
    intro ys i0
    simp [sendSeq]
  | cons p ps ih =>
    intro ys i0
    by_cases h0 : ios i0 = 0
    · simp only [List.cons_append, sendSeq, if_pos h0]
      by_cases h1 : (sendSeq ios (i0 + 1) ps).1 = 0
      · simp [h1, ih ys (i0 + 1)]
      · simp [h1, ih ys (i0 + 1)]
    · simp [sendSeq, if_neg h0]

lemma sendSeq_all_ok (ios : Nat → Int) :
    ∀ (pkts : List Packet) (i0 : Nat),
      (∀ k, k < pkts.length → ios (i0 + k) = 0) →
      sendSeq ios i0 pkts = (0, pkts.map naga_sign, i0 + pkts.length) := by
  intro pkts
  induction pkts with
  | nil =>
    intro i0 _
    simp [sendSeq]
  | cons p ps ih =>
    intro i0 h
    have h0 : ios i0 = 0 := by simpa using h 0 (by simp)
    have hrest : ∀ k, k < ps.length → ios (i0 + 1 + k) = 0 := by
      intro k hk
      have hh := h (k + 1) (by simp only [List.length_cons]; omega)
      have he : i0 + (k + 1) = i0 + 1 + k := by omega
      rwa [he] at hh
    have he : i0 + 1 + ps.length = i0 + (ps.length + 1) := by omega
    simp only [sendSeq, if_pos h0, ih (i0 + 1) hrest, List.map_cons, List.length_cons, he]

lemma sendSeq_first_fail (ios : Nat → Int) :
    ∀ (pkts : List Packet) (k i0 : Nat), k < pkts.length → ios (i0 + k) ≠ 0 →
      (∀ j, j < k → ios (i0 + j) = 0) →
      sendSeq ios i0 pkts =
        (ios (i0 + k), (pkts.take (k + 1)).map naga_sign, i0 + k + 1) := by
  intro pkts
  induction pkts with
  | nil =>
    intro k i0 hk
    simp at hk
  | cons p ps ih =>
    intro k i0 hk hfail hprev
    cases k with
    | zero =>
      have h0 : ios i0 ≠ 0 := by simpa using hfail
      simp [sendSeq, if_neg h0]
    | succ k =>
      have h0 : ios i0 = 0 := by simpa using hprev 0 (by omega)
      have hfail' : ios (i0 + 1 + k) ≠ 0 := by
        have he : i0 + 1 + k = i0 + (k + 1) := by omega
        rwa [he]
      have hprev' : ∀ j, j < k → ios (i0 + 1 + j) = 0 := by
        intro j hj
        have hh := hprev (j + 1) (by omega)
        have he : i0 + (j + 1) = i0 + 1 + j := by omega
        rwa [he] at hh
      have hk' : k < ps.length := by simpa using hk
      have he : i0 + 1 + k = i0 + (k + 1) := by omega
      simp only [sendSeq, if_pos h0, ih k (i0 + 1) hk' hfail' hprev',
        List.take_succ_cons, List.map_cons, he]

lemma do_commit_eq_sendSeq (s : NagaState) (ios : Nat → Int) (i0 c : Nat)
    (hc : freqCode s.frequency = some c) :
    naga_do_commit s ios i0 = sendSeq ios i0 (commitPlan s c) := by
  unfold naga_do_commit commitPlan commitHead
  rw [sendSeq_append ios (command_init_resolution s :: ledCmds s) [freqCmd c] i0, hc]
  by_cases h : (sendSeq ios i0 (command_init_resolution s :: ledCmds s)).1 = 0
  · simp [h]
  · simp [h]

lemma do_commit_invalid_freq (s : NagaState) (ios : Nat → Int)
    (hc : freqCode s.frequency = none)
    (h : ∀ k, k < (commitHead s).length → ios k = 0) :
    naga_do_commit s ios 0 =
      (-EINVAL, (commitHead s).map naga_sign, (commitHead s).length) := by
  unfold naga_do_commit
  have hall := sendSeq_all_ok ios (commitHead s) 0 (by intro k hk; simpa using h k hk)
  rw [show (command_init_resolution s :: ledCmds s) = commitHead s from rfl, hall, hc]
  simp

/-! # Claim C1 -/

/-- Claim C1, counterexample: on a claimed, pending device holding the
out-of-enum frequency 300, with a transport on which every call
succeeds, commit still returns -EINVAL, transmits only the resolution
command and the two supported-LED commands (3 packets, no frequency
command), and leaves commit_pending set — contradicting the claim that
the step sequence always includes one frequency command, that the error
returned is the I/O error of a failing step, and that commit_pending is
cleared when every transport step succeeds. -/
theorem commit_counterexample :
    (naga_commit sInvalidFreq (fun _ => 0) false).1 = -EINVAL ∧
    (naga_commit sInvalidFreq (fun _ => 0) false).1 ≠ 0 ∧
    (naga_commit sInvalidFreq (fun _ => 0) false).2.1.commit_pending = true ∧
    ((naga_commit sInvalidFreq (fun _ => 0) false).2.2).length = 3 := by
  decide

/-- Claim C1 (amended): commit on an unclaimed device is a busy error
with no transport calls; with no pending commit and no force it is a
no-op with zero transport calls; otherwise, when the stored frequency
is a supported enum value, it sends in order one resolution command,
one LED command per LED whose state is not the unsupported sentinel,
and one frequency command, returning the I/O error of the first failing
step immediately with commit_pending and the rest of the state left
unchanged, and clearing commit_pending exactly when every step
succeeds; when the stored frequency is not a supported enum value it
returns -EINVAL after sending only the resolution and LED commands,
again leaving the state unchanged. -/
theorem naga_commit_spec (s : NagaState) (ios : Nat → Int) (force : Bool) (c : Nat) :
    (s.claim_count = 0 → naga_commit s ios force = (-EBUSY, s, [])) ∧
    (s.claim_count ≠ 0 → s.commit_pending = false → force = false →
      naga_commit s ios force = (0, s, [])) ∧
    (s.claim_count ≠ 0 → (s.commit_pending = true ∨ force = true) →
      freqCode s.frequency = some c →
      ((∀ k, k < (commitPlan s c).length → ios k = 0) →
        naga_commit s ios force =
          (0, { s with commit_pending := false }, (commitPlan s c).map naga_sign)) ∧
      (∀ k, k < (commitPlan s c).length → ios k ≠ 0 → (∀ j, j < k → ios j = 0) →
        naga_commit s ios force =
          (ios k, s, ((commitPlan s c).take (k + 1)).map naga_sign))) ∧
    (s.claim_count ≠ 0 → (s.commit_pending = true ∨ force = true) →
      freqCode s.frequency = none →
      (∀ k, k < (commitHead s).length → ios k = 0) →
      naga_commit s ios force = (-EINVAL, s, (commitHead s).map naga_sign)) := by
  have hrun : s.claim_count ≠ 0 → (s.commit_pending = true ∨ force = true) →
      naga_commit s ios force =
        if (naga_do_commit s ios 0).1 = 0 then
          (0, { s with commit_pending := false }, (naga_do_commit s ios 0).2.1)
        else ((naga_do_commit s ios 0).1, s, (naga_do_commit s ios 0).2.1) := by
    intro h1 h2
    unfold naga_commit
    rw [if_neg h1]
    have hor : (s.commit_pending || force) = true := by
      rcases h2 with h | h <;> simp [h]
    rw [if_pos hor]
  refine ⟨?_, ?_, ?_, ?_⟩
  · intro h
    unfold naga_commit
    rw [if_pos h]
  · intro h1 h2 h3
    unfold naga_commit
    rw [if_neg h1, h2, h3]
    simp
  · intro h1 h2 hc
    constructor
    · intro h
      rw [hrun h1 h2, do_commit_eq_sendSeq s ios 0 c hc,
        sendSeq_all_ok ios (commitPlan s c) 0 (by intro k hk; simpa using h k hk)]
      simp
    · intro k hk hfail hprev
      rw [hrun h1 h2, do_commit_eq_sendSeq s ios 0 c hc,
        sendSeq_first_fail ios (commitPlan s c) k 0 hk (by simpa using hfail)
          (by intro j hj; simpa using hprev j hj)]
      simp only [Nat.zero_add]
      rw [if_neg hfail]
  · intro h1 h2 hc h
    rw [hrun h1 h2, do_commit_invalid_freq s ios hc h]
    simp [EINVAL]

/-- Claim C1 witness: on the concrete claimed state with a pending
commit, a fully successful transport flushes the 4-packet plan and
clears the pending flag, and a transport failing at the first call
returns that error, leaves the state unchanged and stops after one
packet. -/
theorem naga_commit_spec_witness :
    naga_commit { sClaimed with commit_pending := true } (fun _ => 0) false =
      (0, { sClaimed with commit_pending := false },
       (commitPlan { sClaimed with commit_pending := true } 1).map naga_sign) ∧
    naga_commit { sClaimed with commit_pending := true } (fun _ => (-5 : Int)) false =
      ((-5 : Int), { sClaimed with commit_pending := true },
       ((commitPlan { sClaimed with commit_pending := true } 1).take 1).map naga_sign) := by
  constructor
  · exact ((naga_commit_spec { sClaimed with commit_pending := true }
      (fun _ => 0) false 1).2.2.1 (by decide) (by decide) (by decide)).1
      (fun k _ => rfl)
  · exact ((naga_commit_spec { sClaimed with commit_pending := true }
      (fun _ => (-5 : Int)) false 1).2.2.1 (by decide) (by decide) (by decide)).2
      0 (by decide) (by decide) (by omega)

/-! # Claim C5 -/

/-- Claim C5, counterexample: toggling the (unsupported) thumb-grid LED
on an unclaimed Classic-style device returns -EINVAL, not the busy
error the claim promises for every mutator on an unclaimed device,
because naga_led_toggle validates its arguments before checking the
claim. -/
theorem unclaimed_busy_counterexample :
    naga_led_toggle sUnclaimed 2 LedState.on = (-EINVAL, sUnclaimed) ∧
    (-EINVAL : Int) ≠ -EBUSY := by decide

/-- Claim C5 (amended): on an unclaimed device, set_frequency,
set_dpi_mapping and commit return the busy error with zero transport
calls and unchanged state; set_led returns the busy error when its
arguments pass validation (LED id in range, target state on/off, LED
not the unsupported sentinel) and invalid-argument otherwise, in every
case with zero transport calls and unchanged state. -/
theorem unclaimed_mutators_spec (s : NagaState) (f : Nat) (axis : Option Nat)
    (d : DpiMapping) (ios : Nat → Int) (force : Bool) (id : Nat) (st : LedState)
    (h : s.claim_count = 0) :
    naga_set_freq s f = (-EBUSY, s) ∧
    naga_set_dpimapping s axis d = (-EBUSY, s) ∧
    naga_commit s ios force = (-EBUSY, s, []) ∧
    (id < 3 → (st = LedState.off ∨ st = LedState.on) →
      s.ledState id ≠ LedState.unknown → naga_led_toggle s id st = (-EBUSY, s)) ∧
    (naga_led_toggle s id st).2 = s ∧
    ((naga_led_toggle s id st).1 = -EBUSY ∨ (naga_led_toggle s id st).1 = -EINVAL) ∧
    (NAGA_NR_LEDS ≤ id → naga_led_toggle s id st = (-EINVAL, s)) ∧
    (st ≠ LedState.off → st ≠ LedState.on → naga_led_toggle s id st = (-EINVAL, s)) ∧
    (s.ledState id = LedState.unknown → naga_led_toggle s id st = (-EINVAL, s)) := by
  refine ⟨?_, ?_, ?_, ?_, ?_, ?_, ?_, ?_, ?_⟩
  · unfold naga_set_freq
    rw [if_pos h]
  · unfold naga_set_dpimapping
    rw [if_pos h]
  · unfold naga_commit
    rw [if_pos h]
  · intro hid hst hsent
    unfold naga_led_toggle
    rw [if_neg (by simp only [NAGA_NR_LEDS]; omega),
      if_neg (by rcases hst with h2 | h2 <;> simp [h2]), if_neg hsent, if_pos h]
  · unfold naga_led_toggle
    split_ifs with h1 h2 h3
    · rfl
    · rfl
    · rfl
    · rfl
  · unfold naga_led_toggle
    split_ifs with h1 h2 h3
    · right; rfl
    · right; rfl
    · right; rfl
    · left; rfl
  · intro hid
    unfold naga_led_toggle
    rw [if_pos (by simp only [NAGA_NR_LEDS] at hid ⊢; omega)]
  · intro hoff hon
    unfold naga_led_toggle
    split_ifs with h1 h2 h3
    · rfl
    · rfl
    · rfl
    · exact absurd ⟨hoff, hon⟩ h2
  · intro hsent
    unfold naga_led_toggle
    split_ifs with h1 h2
    · rfl
    · rfl
    · rfl

/-- Claim C5 witness: the amended statement on the concrete unclaimed
state: set_frequency and a valid-argument set_led call return busy,
while an out-of-range LED id, an invalid target state and the
sentinel-unsupported thumb LED each return invalid-argument. -/
theorem unclaimed_mutators_witness :
    naga_set_freq sUnclaimed 125 = (-EBUSY, sUnclaimed) ∧
    naga_led_toggle sUnclaimed 0 LedState.off = (-EBUSY, sUnclaimed) ∧
    naga_led_toggle sUnclaimed 5 LedState.on = (-EINVAL, sUnclaimed) ∧
    naga_led_toggle sUnclaimed 0 LedState.unknown = (-EINVAL, sUnclaimed) ∧
    naga_led_toggle sUnclaimed 2 LedState.off = (-EINVAL, sUnclaimed) := by
  have h := unclaimed_mutators_spec sUnclaimed 125 none ⟨0, 100⟩ (fun _ => 0) false
    0 LedState.off (by decide)
  have h5 := unclaimed_mutators_spec sUnclaimed 125 none ⟨0, 100⟩ (fun _ => 0) false
    5 LedState.on (by decide)
  have hu := unclaimed_mutators_spec sUnclaimed 125 none ⟨0, 100⟩ (fun _ => 0) false
    0 LedState.unknown (by decide)
  have ht := unclaimed_mutators_spec sUnclaimed 125 none ⟨0, 100⟩ (fun _ => 0) false
    2 LedState.off (by decide)
  exact ⟨h.1, h.2.2.2.1 (by decide) (Or.inl rfl) (by decide),
    h5.2.2.2.2.2.2.1 (by decide),
    hu.2.2.2.2.2.2.2.1 (by decide) (by decide),
    ht.2.2.2.2.2.2.2.2 (by decide)⟩

/-! # Claim C6 -/

/-- Claim C6: a successful attach with the 2014 product id yields 82
DPI-mapping slots, all three LEDs supported and on, and the raw
resolution variant; a successful attach with any other product id
yields 56 slots, the thumb-grid LED marked unsupported, and the scaled
variant. -/
theorem init_product_table (pid : NagaPid) (att : Nat → Int × Nat)
    (ios : Nat → Int) (s : NagaState)
    (h : (razer_naga_init pid att ios).result = Except.ok s) :
    (pid = NagaPid.n2014 →
      s.nb_dpimappings = 82 ∧ s.variant = ResVariant.raw ∧
      s.led_scroll = LedState.on ∧ s.led_logo = LedState.on ∧
      s.led_thumb = LedState.on) ∧
    (pid ≠ NagaPid.n2014 →
      s.nb_dpimappings = 56 ∧ s.variant = ResVariant.scaled ∧
      s.led_scroll = LedState.on ∧ s.led_logo = LedState.on ∧
      s.led_thumb = LedState.unknown) := by
  unfold razer_naga_init at h
  split_ifs at h with h1 h2
  simp only [Except.ok.injEq] at h
  subst h
  constructor
  · intro hpid
    simp [initState, initNbDpimappings, hpid, NAGA_8200_NR_DPIMAPPINGS]
  · intro hpid
    simp [initState, initNbDpimappings, hpid, NAGA_5600_NR_DPIMAPPINGS]

/-- Claim C6 witness: concrete attaches of a 2014 and a Classic device
(firmware probe answering 261 at once, transport always succeeding). -/
theorem init_product_table_witness :
    (razer_naga_init NagaPid.n2014 (fun _ => ((0 : Int), 261)) (fun _ => 0)).result
      = Except.ok s2014 ∧
    s2014.nb_dpimappings = 82 ∧ s2014.variant = ResVariant.raw ∧
    s2014.led_thumb = LedState.on := by
  have hres : (razer_naga_init NagaPid.n2014 (fun _ => ((0 : Int), 261))
      (fun _ => 0)).result = Except.ok s2014 := by rfl
  have h := (init_product_table NagaPid.n2014 (fun _ => ((0 : Int), 261))
    (fun _ => 0) s2014 hres).1 rfl
  exact ⟨hres, h.1, h.2.1, h.2.2.2.2⟩

/-! # Claim C7 -/

/-- Claim C7: toggling any LED whose stored state is the unsupported
sentinel returns invalid-argument and leaves the whole state (LED
array and commit_pending included) unchanged; and no operation ever
changes which LEDs hold the sentinel. -/
theorem led_sentinel_spec (s : NagaState) (id id2 : Nat) (new_state : LedState)
    (f : Nat) (axis : Option Nat) (d : DpiMapping) (ios : Nat → Int) (force : Bool) :
    (s.ledState id = LedState.unknown →
      naga_led_toggle s id new_state = (-EINVAL, s)) ∧
    ((naga_led_toggle s id new_state).2.ledState id2 = LedState.unknown ↔
      s.ledState id2 = LedState.unknown) ∧
    (naga_set_freq s f).2.ledState id2 = s.ledState id2 ∧
    (naga_set_dpimapping s axis d).2.ledState id2 = s.ledState id2 ∧
    (naga_commit s ios force).2.1.ledState id2 = s.ledState id2 := by
  refine ⟨?_, ?_, ?_, ?_, ?_⟩
  · intro h
    unfold naga_led_toggle
    split_ifs <;> rfl
  · unfold naga_led_toggle
    split_ifs with h1 h2 h3 h4
    · exact Iff.rfl
    · exact Iff.rfl
    · exact Iff.rfl
    · exact Iff.rfl
    · have hid : id < 3 := by simp only [NAGA_NR_LEDS] at h1; omega
      have hnew : new_state ≠ LedState.unknown := by
        rcases new_state <;> simp_all
      interval_cases id <;>
        by_cases hq : id2 = 0 <;> by_cases hr : id2 = 1 <;>
          simp_all [NagaState.setLed, NagaState.ledState]
  · unfold naga_set_freq
    split_ifs <;> rfl
  · rcases axis with _ | a
    · by_cases hcl : s.claim_count = 0 <;>
        simp [naga_set_dpimapping, hcl, NagaState.ledState]
    · by_cases hcl : s.claim_count = 0 <;>
        by_cases h3 : a ≥ 3 <;>
          by_cases ha0 : a = 0 <;>
            by_cases ha1 : a = 1 <;>
              simp [naga_set_dpimapping, hcl, h3, ha0, ha1, NagaState.ledState]
  · unfold naga_commit
    split_ifs <;> rfl

/-- Claim C7 witness: the sentinel-toggle rejection on the concrete
claimed Classic state. -/
theorem led_sentinel_spec_witness :
    naga_led_toggle sClaimed 2 LedState.on = (-EINVAL, sClaimed) :=
  (led_sentinel_spec sClaimed 2 0 LedState.on 0 none ⟨0, 100⟩ (fun _ => 0) false).1
    (by decide)

/-! # Claim C8 -/

/-- Claim C8, counterexample: setting the out-of-enum frequency value
300 on a claimed device succeeds (returns 0, not invalid-argument),
stores the value and sets commit_pending — naga_set_freq performs no
validation. -/
theorem set_freq_validation_counterexample :
    (naga_set_freq sClaimed 300).1 = 0 ∧
    (naga_set_freq sClaimed 300).1 ≠ -EINVAL ∧
    (naga_set_freq sClaimed 300).2.frequency = 300 ∧
    (naga_set_freq sClaimed 300).2.commit_pending = true := by decide

/-- Claim C8 (amended): on a claimed device naga_set_freq stores any
frequency value verbatim and sets commit_pending, returning success;
a value outside the supported enum is rejected with invalid-argument
only later, by the frequency mapping inside naga_do_commit, after the
resolution and LED commands have already been sent. -/
theorem set_freq_spec (s : NagaState) (f : Nat) (ios : Nat → Int)
    (h : s.claim_count ≠ 0) :
    naga_set_freq s f = (0, { s with frequency := f, commit_pending := true }) ∧
    (∀ s2 : NagaState, freqCode s2.frequency = none →
      (∀ k, k < (commitHead s2).length → ios k = 0) →
      (naga_do_commit s2 ios 0).1 = -EINVAL) := by
  constructor
  · unfold naga_set_freq
    rw [if_neg h]
  · intro s2 hc hall
    rw [do_commit_invalid_freq s2 ios hc hall]

/-- Claim C8 witness: the amended statement evaluated on the concrete
claimed state with frequency value 300. -/
theorem set_freq_spec_witness :
    naga_set_freq sClaimed 300 =
      (0, { sClaimed with frequency := 300, commit_pending := true }) ∧
    (naga_do_commit sInvalidFreq (fun _ => 0) 0).1 = -EINVAL := by
  have h := set_freq_spec sClaimed 300 (fun _ => 0) (by decide)
  exact ⟨h.1, h.2 sInvalidFreq (by decide) (fun k _ => rfl)⟩

/-! # Claim C9 -/

/-- Claim C9, counterexample: on a claimed device, set_dpi_mapping with
the present axis id 2 returns -EINVAL and changes nothing, where the
claim says any axis id other than 0 and 1 applies the mapping to both
axes and succeeds. -/
theorem set_dpimapping_counterexample :
    naga_set_dpimapping sClaimed (some 2) ⟨4, 500⟩ = (-EINVAL, sClaimed) ∧
    (naga_set_dpimapping sClaimed (some 2) ⟨4, 500⟩).1 ≠ 0 ∧
    (naga_set_dpimapping sClaimed (some 2) ⟨4, 500⟩).2.cur_dpimapping_X ≠ ⟨4, 500⟩ := by
  decide

/-- Claim C9 (amended): on a claimed device, set_dpi_mapping with axis
id 0 sets only the X mapping, with axis id 1 only the Y mapping, and
with an absent axis argument both mappings, succeeding in each case;
any other present axis id returns invalid-argument and changes
nothing. -/
theorem set_dpimapping_spec (s : NagaState) (d : DpiMapping) (a : Nat)
    (h : s.claim_count ≠ 0) :
    naga_set_dpimapping s (some 0) d =
      (0, { s with cur_dpimapping_X := d, commit_pending := true }) ∧
    naga_set_dpimapping s (some 1) d =
      (0, { s with cur_dpimapping_Y := d, commit_pending := true }) ∧
    naga_set_dpimapping s none d =
      (0, { s with cur_dpimapping_X := d, cur_dpimapping_Y := d,
                   commit_pending := true }) ∧
    (a ≠ 0 → a ≠ 1 → naga_set_dpimapping s (some a) d = (-EINVAL, s)) := by
  refine ⟨?_, ?_, ?_, ?_⟩
  · simp [naga_set_dpimapping, h]
  · simp [naga_set_dpimapping, h]
  · simp [naga_set_dpimapping, h]
  · intro ha0 ha1
    by_cases h3 : a ≥ 3
    · simp [naga_set_dpimapping, h, h3]
    · simp [naga_set_dpimapping, h, h3, ha0, ha1]

/-- Claim C9 witness: the amended statement on the concrete claimed
state, for axis 0 and for the rejected axis id 2. -/
theorem set_dpimapping_spec_witness :
    naga_set_dpimapping sClaimed (some 0) ⟨4, 500⟩ =
      (0, { sClaimed with cur_dpimapping_X := ⟨4, 500⟩, commit_pending := true }) ∧
    naga_set_dpimapping sClaimed (some 2) ⟨4, 500⟩ = (-EINVAL, sClaimed) := by
  have h := set_dpimapping_spec sClaimed ⟨4, 500⟩ 2 (by decide)
  exact ⟨h.1, h.2.2.2 (by decide) (by decide)⟩

/-! # Claim C10 -/

/-- Claim C10: after every successful attach, whatever the product
variant, both axes' current DPI mapping is the slot with resolution
1000 DPI, which sits at index 9 of the step table. -/
theorem init_default_dpimapping (pid : NagaPid) (att : Nat → Int × Nat)
    (ios : Nat → Int) (s : NagaState)
    (h : (razer_naga_init pid att ios).result = Except.ok s) :
    s.cur_dpimapping_X = ⟨9, 1000⟩ ∧ s.cur_dpimapping_Y = ⟨9, 1000⟩ ∧
    s.cur_dpimapping_X.res = 1000 ∧
    (dpimappingTable s.nb_dpimappings).getD 9 ⟨0, 0⟩ = ⟨9, 1000⟩ := by
  unfold razer_naga_init at h
  split_ifs at h with h1 h2
  simp only [Except.ok.injEq] at h
  subst h
  by_cases hpid : pid = NagaPid.n2014
  · subst hpid
    simp only [initState, initNbDpimappings]
    refine ⟨by decide, by decide, by decide, by decide⟩
  · simp only [initState, initNbDpimappings, if_neg hpid]
    refine ⟨by decide, by decide, by decide, by decide⟩

/-- Claim C10 witness: a concrete successful Classic attach ends with
both current mappings on the 1000 DPI slot, index 9. -/
theorem init_default_dpimapping_witness :
    (razer_naga_init NagaPid.classic (fun _ => ((0 : Int), 261)) (fun _ => 0)).result
      = Except.ok sClassicInit ∧
    sClassicInit.cur_dpimapping_X = ⟨9, 1000⟩ ∧
    sClassicInit.cur_dpimapping_Y = ⟨9, 1000⟩ := by
  have hres : (razer_naga_init NagaPid.classic (fun _ => ((0 : Int), 261))
      (fun _ => 0)).result = Except.ok sClassicInit := by rfl
  have h := init_default_dpimapping NagaPid.classic (fun _ => ((0 : Int), 261))
    (fun _ => 0) sClassicInit hres
  exact ⟨hres, h.1, h.2.1⟩

end Razer
